import Mathlib

/-!
Shallow embedding of `src/plugins/vis_type_vega/public/vega_view/vega_base_view.js`
(OpenSearch Dashboards, vis_type_vega plugin).

The file is single-threaded JavaScript driven by an event loop; each method of
`VegaBaseView` runs as an atomic synchronous step (its `await`s only suspend
between steps).  We embed each method as a pure Lean function on an explicit
state, keeping the source's field and method names where Lean allows it.
External collaborators (the vega loader's original `sanitize`, the index-pattern
service, `extractIndexPatternsFromSpec`, the host `_applyFilter` callback) are
modelled as parameters; fallible code returns `Except String _` where the JS
throws.
-/

namespace VegaBaseView

/-! ## Message sink (`_addMessage`, `onWarn`, `onError`, the message part of `init`) -/

inductive MsgType where
  | warn
  | err
deriving DecidableEq, Repr

/-- One `<li>` record appended to the `vgaVis__messages` list: its kind and text. -/
structure Message where
  type : MsgType
  text : String
deriving DecidableEq, Repr

/-- Embedding of `_addMessage(type, text)`: appends one record, preserving order
(the DOM append).  The lazy creation of the mount node is presentation only and
is not modelled. -/
def addMessage (msgs : List Message) (t : MsgType) (text : String) : List Message :=
  msgs ++ [⟨t, text⟩]

/-- The fields of the external `ParserResult` (`this._parser`) that the message
and lifecycle paths read: `warnings`, `error`, `hideWarnings`. -/
structure ParserResult where
  warnings : List String
  error : Option String
  hideWarnings : Bool
deriving DecidableEq, Repr

/-- Embedding of `onWarn(...)`: appends a warning unless
`this._parser && this._parser.hideWarnings` (the parser reference may be absent,
hence the `Option`). -/
def onWarn (parser : Option ParserResult) (msgs : List Message) (text : String) :
    List Message :=
  match parser with
  | none => addMessage msgs MsgType.warn text
  | some p => if p.hideWarnings then msgs else addMessage msgs MsgType.warn text

/-- Modelled from the spec: `Utils.formatErrorToStr` lives in
`data_model/utils.js`, outside the reviewed source; the spec only says errors
are routed to the message sink as text, so formatting is the identity here. -/
def formatErrorToStr (e : String) : String := e

/-- Embedding of `onError(...)`: always appends an error record. -/
def onError (msgs : List Message) (e : String) : List Message :=
  addMessage msgs MsgType.err (formatErrorToStr e)

/-- The message trace of `init()` up to the fatal-error early return: every
parser warning is appended with `_addMessage('warn', ...)` directly (the code
comment says this deliberately bypasses the `onWarn` checks), then a truthy
`parser.error` is appended as an error record. -/
def initMessages (parser : ParserResult) : List Message :=
  let msgs := parser.warnings.foldl (fun m w => addMessage m MsgType.warn w) []
  match parser.error with
  | some e => if e.isEmpty then msgs else addMessage msgs MsgType.err e
  | none => msgs

/-! ## Destroy-handler chain (`destroy`, `_addDestroyHandler`) -/

/-- The destroy-related state of a controller.  Handlers are identified by
`Nat` ids; running a handler is recorded by appending its id to `executed`.
All handlers registered by this file are total cleanup closures, so each
invocation completes, and `Promise.all` of a destroy call is modelled by the
list of handler invocations it awaits (in invocation order): the promise value
`some hs` stands for the one completion signal that resolves successfully once
every handler in `hs` has completed. -/
structure DestroyState where
  destroyHandlers : Option (List Nat)
  ongoingDestroy : Option (List Nat)
  executed : List Nat
deriving DecidableEq, Repr

/-- The destroy-related state set up by the constructor:
`this._destroyHandlers = []`, no ongoing destroy, nothing executed. -/
def initialDestroyState : DestroyState := ⟨some [], none, []⟩

/-- Embedding of `destroy()`.  The whole body is one synchronous step: if
`this._destroyHandlers` is non-null, `Promise.all(this._destroyHandlers.map((v) => v()))`
invokes every handler (in array order) and becomes `this._ongoingDestroy`, and
the chain is set to `null`; the stored `this._ongoingDestroy` is returned either
way. -/
def destroy (s : DestroyState) : DestroyState × Option (List Nat) :=
  match s.destroyHandlers with
  | some hs =>
      (⟨none, some hs, s.executed ++ hs⟩, some hs)
  | none => (s, s.ongoingDestroy)

/-- Embedding of `_addDestroyHandler(handler)`: if the chain is still live the
handler is pushed; otherwise it is invoked right away (recorded in `executed`),
and no promise is touched. -/
def addDestroyHandler (s : DestroyState) (h : Nat) : DestroyState :=
  match s.destroyHandlers with
  | some hs => ⟨some (hs ++ [h]), s.ongoingDestroy, s.executed⟩
  | none => ⟨none, s.ongoingDestroy, s.executed ++ [h]⟩

/-- Registering a list of handlers in order (repeated `_addDestroyHandler`). -/
def registerAll (s : DestroyState) (hs : List Nat) : DestroyState :=
  hs.foldl addDestroyHandler s

theorem registerAll_live (hs : List Nat) :
    ∀ (l : List Nat) (od : Option (List Nat)) (e : List Nat),
      registerAll ⟨some l, od, e⟩ hs = ⟨some (l ++ hs), od, e⟩ := by
  induction hs with
  | nil => intro l od e; simp [registerAll]
  | cons h t ih =>
      intro l od e
      have : registerAll ⟨some l, od, e⟩ (h :: t)
          = registerAll ⟨some (l ++ [h]), od, e⟩ t := by
        simp [registerAll, addDestroyHandler, List.foldl]
      rw [this, ih (l ++ [h]) od e]
      simp

end VegaBaseView

namespace VegaBaseView

/-! ## Claim theorems about destroy -/

/-- C1: on a live controller (chain = `some hs`), the first `destroy()` runs
exactly the registered handlers once (appending `hs` to the execution log),
clears the chain, and returns the completion promise `some hs` (which resolves
once all those total handlers complete); every subsequent `destroy()` call —
including ones issued while the teardown promise is still unresolved, since the
state after the first call's synchronous step is exactly this claimed state —
leaves the state unchanged (no handler runs again) and returns the same
promise. -/
theorem destroy_runs_handlers_exactly_once (s : DestroyState) (hs : List Nat)
    (hlive : s.destroyHandlers = some hs) :
    (destroy s).1.executed = s.executed ++ hs
    ∧ (destroy s).1.destroyHandlers = none
    ∧ (destroy s).2 = some hs
    ∧ (∀ n : Nat, (fun t => (destroy t).1)^[n] (destroy s).1 = (destroy s).1)
    ∧ (destroy (destroy s).1).2 = some hs := by
  have hd : destroy s = (⟨none, some hs, s.executed ++ hs⟩, some hs) := by
    simp [destroy, hlive]
  have hfix : destroy (⟨none, some hs, s.executed ++ hs⟩ : DestroyState)
      = (⟨none, some hs, s.executed ++ hs⟩, some hs) := by
    simp [destroy]
  refine ⟨by rw [hd], by rw [hd], by rw [hd], ?_, ?_⟩
  · intro n
    rw [hd]
    exact Function.iterate_fixed (by simp [hfix]) n
  · rw [hd]
    simp [hfix]

/-- Closed instance of `destroy_runs_handlers_exactly_once` at a concrete live
state carrying two registered handlers. -/
theorem destroy_runs_handlers_exactly_once_witness :
    (destroy ⟨some [7, 9], none, []⟩).1.executed = [] ++ [7, 9]
    ∧ (destroy ⟨some [7, 9], none, []⟩).1.destroyHandlers = none
    ∧ (destroy ⟨some [7, 9], none, []⟩).2 = some [7, 9]
    ∧ (∀ n : Nat, (fun t => (destroy t).1)^[n] (destroy ⟨some [7, 9], none, []⟩).1
        = (destroy ⟨some [7, 9], none, []⟩).1)
    ∧ (destroy (destroy ⟨some [7, 9], none, []⟩).1).2 = some [7, 9] :=
  destroy_runs_handlers_exactly_once ⟨some [7, 9], none, []⟩ [7, 9] rfl

/-- C6 counterexample: registering handler 0 and then handler 1 and destroying
runs them as `[0, 1]` — registration order — which is not the reverse order
`[1, 0]` the claim asserts. -/
theorem destroy_reverse_order_counterexample :
    (destroy (registerAll initialDestroyState [0, 1])).1.executed = [0, 1]
    ∧ (destroy (registerAll initialDestroyState [0, 1])).1.executed ≠ [1, 0] := by
  constructor
  · rfl
  · decide

/-- C6 amended: when `destroy()` runs the registered cleanup handlers, it
executes them in the order in which they were registered (`map` walks the
pushed array front to back). -/
theorem destroy_runs_in_registration_order (hs : List Nat) :
    (destroy (registerAll initialDestroyState hs)).1.executed = hs := by
  rw [initialDestroyState, registerAll_live hs [] none []]
  simp [destroy]

/-- C10: a handler registered after `destroy()` has claimed the chain runs
immediately at registration time (it is appended to the execution log by
`_addDestroyHandler` itself) and the stored teardown promise is left exactly as
`destroy()` returned it, so the promise does not await the new handler; a
handler registered before `destroy()` begins is only enqueued (the log is
untouched) and runs during the teardown. -/
theorem addDestroyHandler_after_destroy (s : DestroyState) (hs : List Nat) (h : Nat)
    (hlive : s.destroyHandlers = some hs) :
    (addDestroyHandler (destroy s).1 h).executed = (destroy s).1.executed ++ [h]
    ∧ (addDestroyHandler (destroy s).1 h).ongoingDestroy = (destroy s).2
    ∧ (addDestroyHandler (destroy s).1 h).destroyHandlers = none
    ∧ (addDestroyHandler s h).executed = s.executed
    ∧ (addDestroyHandler s h).destroyHandlers = some (hs ++ [h])
    ∧ (destroy (addDestroyHandler s h)).1.executed = s.executed ++ hs ++ [h] := by
  have hd : destroy s = (⟨none, some hs, s.executed ++ hs⟩, some hs) := by
    simp [destroy, hlive]
  refine ⟨?_, ?_, ?_, ?_, ?_, ?_⟩
  · rw [hd]; simp [addDestroyHandler]
  · rw [hd]; simp [addDestroyHandler]
  · rw [hd]; simp [addDestroyHandler]
  · simp [addDestroyHandler, hlive]
  · simp [addDestroyHandler, hlive]
  · simp [addDestroyHandler, hlive, destroy]

theorem foldl_addMessage (l : List String) (t : MsgType) :
    ∀ acc : List Message,
      l.foldl (fun m w => addMessage m t w) acc = acc ++ l.map (fun w => ⟨t, w⟩) := by
  induction l with
  | nil => intro acc; simp
  | cons w ws ih =>
      intro acc
      rw [List.foldl_cons, ih (addMessage acc t w)]
      simp [addMessage]

/-- C9 counterexample: a parser result that requests warning suppression
(`hideWarnings = true`) and carries the parse warning `"w"` still gets that
warning appended by `init()` — the init loop calls `_addMessage('warn', ...)`
directly, bypassing the `onWarn` suppression check. -/
theorem init_warning_despite_suppression_counterexample :
    (⟨["w"], none, true⟩ : ParserResult).hideWarnings = true
    ∧ Message.mk MsgType.warn "w" ∈ initMessages ⟨["w"], none, true⟩ := by
  constructor
  · rfl
  · simp [initMessages, addMessage]

/-- C9 amended: when the active ParserResult requests warning suppression,
warnings routed through `onWarn` append nothing to the message sink, but the
pre-existing parse warnings surfaced during `init()` are appended regardless of
the suppression flag. -/
theorem onWarn_suppressed_but_init_warnings_shown (p : ParserResult)
    (msgs : List Message) (text : String) (hhide : p.hideWarnings = true) :
    onWarn (some p) msgs text = msgs
    ∧ ∀ w, w ∈ p.warnings → Message.mk MsgType.warn w ∈ initMessages p := by
  constructor
  · simp [onWarn, hhide]
  · intro w hw
    have hmem : Message.mk MsgType.warn w
        ∈ p.warnings.foldl (fun m h => addMessage m MsgType.warn h) [] := by
      rw [foldl_addMessage]
      simp only [List.nil_append, List.mem_map]
      exact ⟨w, hw, rfl⟩
    unfold initMessages
    cases herr : p.error with
    | none => exact hmem
    | some e =>
        dsimp only
        by_cases he : e.isEmpty = true
        · rw [if_pos he]
          exact hmem
        · rw [if_neg he]
          unfold addMessage
          exact List.mem_append_left _ hmem

/-- Closed instance of `onWarn_suppressed_but_init_warnings_shown` at a
suppressing parser with one parse warning. -/
theorem onWarn_suppressed_witness :
    onWarn (some ⟨["w"], none, true⟩) [] "other" = []
    ∧ ∀ w, w ∈ (⟨["w"], none, true⟩ : ParserResult).warnings →
        Message.mk MsgType.warn w ∈ initMessages ⟨["w"], none, true⟩ :=
  onWarn_suppressed_but_init_warnings_shown ⟨["w"], none, true⟩ [] "other" rfl

/-- Closed instance of `addDestroyHandler_after_destroy` on a live state with
one registered handler and a fresh handler id. -/
theorem addDestroyHandler_after_destroy_witness :
    (addDestroyHandler (destroy ⟨some [3], none, []⟩).1 5).executed
        = (destroy ⟨some [3], none, []⟩).1.executed ++ [5]
    ∧ (addDestroyHandler (destroy ⟨some [3], none, []⟩).1 5).ongoingDestroy
        = (destroy ⟨some [3], none, []⟩).2
    ∧ (addDestroyHandler (destroy ⟨some [3], none, []⟩).1 5).destroyHandlers = none
    ∧ (addDestroyHandler ⟨some [3], none, []⟩ 5).executed
        = ([] : List Nat)
    ∧ (addDestroyHandler ⟨some [3], none, []⟩ 5).destroyHandlers = some ([3] ++ [5])
    ∧ (destroy (addDestroyHandler ⟨some [3], none, []⟩ 5)).1.executed
        = [] ++ [3] ++ [5] :=
  addDestroyHandler_after_destroy ⟨some [3], none, []⟩ [3] 5 rfl

end VegaBaseView

namespace VegaBaseView

/-! ## URL access gate (`bypassExternalUrlCheck`, the wrapped `loader.sanitize`) -/

/-- The module-private `const bypassToken = Symbol()`.  A JS `Symbol()` is a
fresh value compared by identity; token identities are modelled as `Nat` and
the module's own token is the designated identity `0`.  Any token object
fabricated elsewhere has a different identity. -/
def bypassToken : Nat := 0

/-- An object of the shape `{ url, bypassToken }` as produced by
`bypassExternalUrlCheck`, or fabricated by other code with a different token
identity. -/
structure WrappedUri (U : Type) where
  url : U
  bypassToken : Nat
deriving DecidableEq, Repr

/-- A value reaching the wrapped `loader.sanitize`: either a plain URI (no
`bypassToken` property) or a `{ url, bypassToken }` object. -/
inductive UriVal (U : Type) where
  | raw (u : U)
  | obj (w : WrappedUri U)
deriving DecidableEq, Repr

/-- Embedding of `bypassExternalUrlCheck(url)`: pairs the payload with the
module-private token. -/
def bypassExternalUrlCheck (u : U) : UriVal U :=
  UriVal.obj ⟨u, bypassToken⟩

/-- The substituted text of `externalUrlsAreNotEnabledErrorMessage`. -/
def externalUrlsNotEnabledMsg : String :=
  "External URLs are not enabled. Add   vis_type_vega.enableExternalUrls: true   to opensearch_dashboards.yml"

/-- Embedding of the wrapped `loader.sanitize` installed by
`createViewConfig()`: if `uri.bypassToken === bypassToken` (identity
comparison) the inner `uri.url` replaces the uri; otherwise, with external URLs
disabled, it throws; in every non-throwing path the original sanitize
(`originalSanitize`, the external vega loader behavior, passed in as a
parameter) is applied to the resulting uri and options. -/
def sanitize (enableExternalUrls : Bool)
    (originalSanitize : UriVal U → Opts → Except String R)
    (uri : UriVal U) (options : Opts) : Except String R :=
  match uri with
  | UriVal.obj w =>
      if w.bypassToken = bypassToken then
        originalSanitize (UriVal.raw w.url) options
      else if !enableExternalUrls then
        Except.error externalUrlsNotEnabledMsg
      else
        originalSanitize uri options
  | UriVal.raw _ =>
      if !enableExternalUrls then
        Except.error externalUrlsNotEnabledMsg
      else
        originalSanitize uri options

/-- C2: for every original sanitize behavior and options, (a) a URI produced by
`bypassExternalUrlCheck` is unwrapped and the original sanitize runs on the
inner URL even with external URLs disabled; (b) a `{ url, bypassToken }` object
whose token has any identity other than the module-private one is rejected with
the descriptive external-URLs error when external URLs are disabled; (c) with
external URLs enabled, a URI with no bypass token gets the original sanitize
behavior unchanged. -/
theorem sanitize_bypass_token_gate {U Opts R : Type}
    (originalSanitize : UriVal U → Opts → Except String R)
    (u : U) (t : Nat) (options : Opts) (hforged : t ≠ bypassToken) :
    sanitize false originalSanitize (bypassExternalUrlCheck u) options
        = originalSanitize (UriVal.raw u) options
    ∧ sanitize false originalSanitize (UriVal.obj ⟨u, t⟩) options
        = Except.error externalUrlsNotEnabledMsg
    ∧ sanitize true originalSanitize (UriVal.raw u) options
        = originalSanitize (UriVal.raw u) options := by
  refine ⟨?_, ?_, ?_⟩
  · simp [sanitize, bypassExternalUrlCheck]
  · simp [sanitize, hforged]
  · simp [sanitize]

/-- Closed instance of `sanitize_bypass_token_gate`: string URLs, unit options,
an original sanitize that echoes its input, and the forged token identity 2. -/
theorem sanitize_bypass_token_gate_witness :
    sanitize false (fun v (_ : Unit) => Except.ok v) (bypassExternalUrlCheck "https://x") ()
        = Except.ok (UriVal.raw "https://x")
    ∧ sanitize false (fun v (_ : Unit) => Except.ok v) (UriVal.obj ⟨"https://x", 2⟩) ()
        = Except.error externalUrlsNotEnabledMsg
    ∧ sanitize true (fun v (_ : Unit) => Except.ok v) (UriVal.raw "https://x") ()
        = Except.ok (UriVal.raw "https://x") :=
  sanitize_bypass_token_gate (fun v (_ : Unit) => Except.ok v) "https://x" 2 () (by decide)

end VegaBaseView

namespace VegaBaseView

/-! ## Time-range normalizer (`_parseTimeRange`, `setTimeFilterHandler`)

An input value (number, string or Date) is represented by its parse behavior:
`absolute` values are accepted by `moment(x)` (and so also by
`dateMath.parse`), resolving to instant `t`; `relative` values are rejected by
`moment` but accepted by `dateMath.parse` (e.g. `"now-1h"`), resolving to
instant `t` at evaluation time; `malformed` values are rejected by both.  Each
constructor carries `raw`, the `JSON.stringify` rendering of the original
value, used only in the error message. -/

inductive TimeInput where
  | absolute (raw : String) (t : Int)
  | relative (raw : String) (t : Int)
  | malformed (raw : String)
deriving DecidableEq, Repr

/-- Result of `moment(x)` restricted to validity and instant: `some t` iff
`moment(x).isValid()`. -/
def momentParse : TimeInput → Option Int
  | TimeInput.absolute _ t => some t
  | TimeInput.relative _ _ => none
  | TimeInput.malformed _ => none

/-- Result of `dateMath.parse(x)` restricted to validity and instant:
absolute dates are also accepted, relative expressions resolve, anything else
yields no valid moment. -/
def dateMathParse : TimeInput → Option Int
  | TimeInput.absolute _ t => some t
  | TimeInput.relative _ t => some t
  | TimeInput.malformed _ => none

/-- The `JSON.stringify` rendering of the original input value. -/
def stringifyTimeInput : TimeInput → String
  | TimeInput.absolute raw _ => raw
  | TimeInput.relative raw _ => raw
  | TimeInput.malformed raw => raw

/-- One side of the `{from, to, mode}` result: a resolved moment instant, or
the original raw input value passed through unchanged. -/
inductive TimeVal where
  | resolved (t : Int)
  | raw (v : TimeInput)
deriving DecidableEq, Repr

inductive TimeMode where
  | absolute
  | relative
deriving DecidableEq, Repr

/-- The `{from, to, mode}` record returned by `_parseTimeRange` (`from` and `to` are
Lean keywords, hence `from_`/`to_`). -/
structure TimeRange where
  from_ : TimeVal
  to_ : TimeVal
  mode : TimeMode
deriving DecidableEq, Repr

/-- The substituted text of `timeValuesTypeErrorMessage`, naming both raw
inputs. -/
def timeValuesErrorMsg (start end_ : TimeInput) : String :=
  "Error setting time filter: both time values must be either relative or absolute dates. start="
    ++ stringifyTimeInput start ++ ", end=" ++ stringifyTimeInput end_

/-- Embedding of `VegaBaseView._parseTimeRange(start, end)`: try both as
absolute moments; else try both through `dateMath.parse`, throwing if either
side stays invalid; mixed valid-absolute/relative pairs collapse to resolved
absolute values, purely relative pairs keep the raw inputs with
mode=relative; finally swap `from`/`to` when the resolved start is strictly
after the resolved end (`isAfter`). -/
def parseTimeRange (start end_ : TimeInput) : Except String TimeRange :=
  match momentParse start, momentParse end_ with
  | some a, some b =>
      if a > b then Except.ok ⟨TimeVal.resolved b, TimeVal.resolved a, TimeMode.absolute⟩
      else Except.ok ⟨TimeVal.resolved a, TimeVal.resolved b, TimeMode.absolute⟩
  | _, _ =>
      match dateMathParse start, dateMathParse end_ with
      | some sd, some ed =>
          if (momentParse start).isSome || (momentParse end_).isSome then
            if sd > ed then
              Except.ok ⟨TimeVal.resolved ed, TimeVal.resolved sd, TimeMode.absolute⟩
            else
              Except.ok ⟨TimeVal.resolved sd, TimeVal.resolved ed, TimeMode.absolute⟩
          else
            if sd > ed then
              Except.ok ⟨TimeVal.raw end_, TimeVal.raw start, TimeMode.relative⟩
            else
              Except.ok ⟨TimeVal.raw start, TimeVal.raw end_, TimeMode.relative⟩
      | _, _ => Except.error (timeValuesErrorMsg start end_)

/-- The range-filter clause `{range: {"*": {mode, gte, lte}}}` produced by
`setTimeFilterHandler` and handed to `this._applyFilter`. -/
structure RangeFilter where
  mode : TimeMode
  gte : TimeVal
  lte : TimeVal
deriving DecidableEq, Repr

/-- Embedding of `setTimeFilterHandler(start, end)`: destructures
`_parseTimeRange` and invokes the host `_applyFilter` callback with the range
clause; `Except.ok f` means the callback was invoked with clause `f`, while
`Except.error _` means `_parseTimeRange` threw first and the callback was never
invoked.  (`Utils.handleInvalidDate` passes numbers, strings and `Date`s
through unchanged and maps anything else to a value neither parser accepts,
which `TimeInput.malformed` already covers.) -/
def setTimeFilterHandler (start end_ : TimeInput) : Except String RangeFilter :=
  (parseTimeRange start end_).map fun r => ⟨r.mode, r.from_, r.to_⟩

end VegaBaseView

namespace VegaBaseView

/-- C3: whenever `_parseTimeRange` accepts a pair of inputs, the result has
mode=relative exactly when neither input parses as an absolute timestamp; in
that case `from`/`to` are the two original raw input values (possibly swapped
by the reversal step), not resolved instants; and whenever at least one side
parses as absolute, the mode is absolute and both sides are resolved parsed
values. -/
theorem parseTimeRange_mode_partition (start end_ : TimeInput) (r : TimeRange)
    (h : parseTimeRange start end_ = Except.ok r) :
    (r.mode = TimeMode.relative ↔ momentParse start = none ∧ momentParse end_ = none)
    ∧ (r.mode = TimeMode.relative →
        (r.from_ = TimeVal.raw start ∧ r.to_ = TimeVal.raw end_)
        ∨ (r.from_ = TimeVal.raw end_ ∧ r.to_ = TimeVal.raw start))
    ∧ ((momentParse start).isSome ∨ (momentParse end_).isSome →
        r.mode = TimeMode.absolute
        ∧ (∃ a, r.from_ = TimeVal.resolved a) ∧ (∃ b, r.to_ = TimeVal.resolved b)) := by
  cases start <;> cases end_ <;>
    simp only [parseTimeRange, momentParse, dateMathParse, Option.isSome_some,
      Option.isSome_none, Bool.true_or, Bool.or_true, Bool.or_self,
      Bool.false_eq_true, eq_self_iff_true, if_true, if_false] at h <;>
    first
      | exact Except.noConfusion h
      | (split at h <;> (injection h with h; subst h; simp [momentParse]))

/-- Closed instance of `parseTimeRange_mode_partition` at a purely relative
pair of inputs. -/
theorem parseTimeRange_mode_partition_witness :
    ((⟨TimeVal.raw (TimeInput.relative "now-1h" (-3600)),
        TimeVal.raw (TimeInput.relative "now" 0), TimeMode.relative⟩ : TimeRange).mode
          = TimeMode.relative
      ↔ momentParse (TimeInput.relative "now-1h" (-3600)) = none
        ∧ momentParse (TimeInput.relative "now" 0) = none)
    ∧ ((⟨TimeVal.raw (TimeInput.relative "now-1h" (-3600)),
        TimeVal.raw (TimeInput.relative "now" 0), TimeMode.relative⟩ : TimeRange).mode
          = TimeMode.relative →
        ((⟨TimeVal.raw (TimeInput.relative "now-1h" (-3600)),
            TimeVal.raw (TimeInput.relative "now" 0), TimeMode.relative⟩ : TimeRange).from_
              = TimeVal.raw (TimeInput.relative "now-1h" (-3600))
          ∧ (⟨TimeVal.raw (TimeInput.relative "now-1h" (-3600)),
              TimeVal.raw (TimeInput.relative "now" 0), TimeMode.relative⟩ : TimeRange).to_
              = TimeVal.raw (TimeInput.relative "now" 0))
        ∨ ((⟨TimeVal.raw (TimeInput.relative "now-1h" (-3600)),
            TimeVal.raw (TimeInput.relative "now" 0), TimeMode.relative⟩ : TimeRange).from_
              = TimeVal.raw (TimeInput.relative "now" 0)
          ∧ (⟨TimeVal.raw (TimeInput.relative "now-1h" (-3600)),
              TimeVal.raw (TimeInput.relative "now" 0), TimeMode.relative⟩ : TimeRange).to_
              = TimeVal.raw (TimeInput.relative "now-1h" (-3600))))
    ∧ ((momentParse (TimeInput.relative "now-1h" (-3600))).isSome
        ∨ (momentParse (TimeInput.relative "now" 0)).isSome →
        (⟨TimeVal.raw (TimeInput.relative "now-1h" (-3600)),
            TimeVal.raw (TimeInput.relative "now" 0), TimeMode.relative⟩ : TimeRange).mode
            = TimeMode.absolute
        ∧ (∃ a, (⟨TimeVal.raw (TimeInput.relative "now-1h" (-3600)),
              TimeVal.raw (TimeInput.relative "now" 0), TimeMode.relative⟩ : TimeRange).from_
              = TimeVal.resolved a)
        ∧ (∃ b, (⟨TimeVal.raw (TimeInput.relative "now-1h" (-3600)),
              TimeVal.raw (TimeInput.relative "now" 0), TimeMode.relative⟩ : TimeRange).to_
              = TimeVal.resolved b)) :=
  parseTimeRange_mode_partition (TimeInput.relative "now-1h" (-3600))
    (TimeInput.relative "now" 0)
    ⟨TimeVal.raw (TimeInput.relative "now-1h" (-3600)),
      TimeVal.raw (TimeInput.relative "now" 0), TimeMode.relative⟩
    (by simp [parseTimeRange, momentParse, dateMathParse])

/-- C4: when neither input parses as an absolute timestamp nor as a relative
date expression, `setTimeFilterHandler` fails with the descriptive error that
names both raw inputs, and the host `_applyFilter` callback is never invoked
(the result is an error, not an applied range clause). -/
theorem setTimeFilterHandler_malformed (s1 s2 : String) :
    setTimeFilterHandler (TimeInput.malformed s1) (TimeInput.malformed s2)
      = Except.error
          ("Error setting time filter: both time values must be either relative or absolute dates. start="
            ++ s1 ++ ", end=" ++ s2) := by
  simp [setTimeFilterHandler, parseTimeRange, momentParse, dateMathParse,
    timeValuesErrorMsg, stringifyTimeInput, Except.map]

/-- C7: for absolute inputs A, B with A chronologically strictly after B,
normalizing (A, B) and normalizing (B, A) agree, with mode=absolute, `from`
the chronologically earlier resolved value and `to` the later one. -/
theorem parseTimeRange_absolute_symmetric (ra rb : String) (ta tb : Int)
    (hafter : tb < ta) :
    parseTimeRange (TimeInput.absolute ra ta) (TimeInput.absolute rb tb)
        = parseTimeRange (TimeInput.absolute rb tb) (TimeInput.absolute ra ta)
    ∧ parseTimeRange (TimeInput.absolute ra ta) (TimeInput.absolute rb tb)
        = Except.ok ⟨TimeVal.resolved tb, TimeVal.resolved ta, TimeMode.absolute⟩ := by
  constructor
  · simp [parseTimeRange, momentParse, hafter, not_lt.mpr (le_of_lt hafter)]
  · simp [parseTimeRange, momentParse, hafter]

/-- Closed instance of `parseTimeRange_absolute_symmetric` at two concrete
absolute instants. -/
theorem parseTimeRange_absolute_symmetric_witness :
    parseTimeRange (TimeInput.absolute "2020-02-01" 200) (TimeInput.absolute "2020-01-01" 100)
        = parseTimeRange (TimeInput.absolute "2020-01-01" 100) (TimeInput.absolute "2020-02-01" 200)
    ∧ parseTimeRange (TimeInput.absolute "2020-02-01" 200) (TimeInput.absolute "2020-01-01" 100)
        = Except.ok ⟨TimeVal.resolved 100, TimeVal.resolved 200, TimeMode.absolute⟩ :=
  parseTimeRange_absolute_symmetric "2020-02-01" "2020-01-01" 200 100 (by decide)

end VegaBaseView

namespace VegaBaseView

/-! ## Expression-function bridge (`vegaFunctions`, `vegaFunctionsHandler`) -/

/-- The module-level `vegaFunctions` table mapping engine-invoked names to
instance-method names. -/
def vegaFunctions : String → Option String
  | "opensearchDashboardsAddFilter" => some "addFilterHandler"
  | "opensearchDashboardsRemoveFilter" => some "removeFilterHandler"
  | "opensearchDashboardsRemoveAllFilters" => some "removeAllFiltersHandler"
  | "opensearchDashboardsSetTimeFilter" => some "setTimeFilterHandler"
  | _ => none

/-- The substituted text of `functionIsNotDefinedForGraphErrorMessage`. -/
def functionNotDefinedMsg (funcName : String) : String :=
  funcName ++ "() is not defined for this graph"

/-- The slice of a view instance that `vegaFunctionsHandler` touches:
name-indexed property access for handler methods (`this[handlerFunc]`, absent
properties give `none`), and the message sink.  A handler takes the forwarded
arguments and either completes or throws. -/
structure VegaView (Arg : Type) where
  methods : String → Option (List Arg → Except String Unit)
  messages : List Message

/-- Embedding of `vegaFunctionsHandler(funcName, ...args)`: look up the
instance-method name in `vegaFunctions`, throw the descriptive error when the
name is unknown or the method is absent on the instance, otherwise run the
handler; the whole body sits in `try/catch` whose catch routes any error to
`onError`, so the function itself always returns normally. -/
def vegaFunctionsHandler (view : VegaView Arg) (funcName : String)
    (args : List Arg) : VegaView Arg :=
  let body : Except String Unit :=
    match vegaFunctions funcName with
    | none => Except.error (functionNotDefinedMsg funcName)
    | some handlerFunc =>
        match view.methods handlerFunc with
        | none => Except.error (functionNotDefinedMsg funcName)
        | some handler => handler args
  match body with
  | Except.ok _ => view
  | Except.error e => ⟨view.methods, onError view.messages e⟩

/-- C5: `vegaFunctionsHandler` never throws to its caller — it always returns
a view state.  When the name is outside the `vegaFunctions` table or the routed
method is absent on the instance, the descriptive `is not defined for this
graph` error is appended to the message sink via `onError`; when the routed
handler itself throws, that error is likewise routed to the sink; when the
handler completes, nothing is appended. -/
theorem vegaFunctionsHandler_never_throws {Arg : Type} (view : VegaView Arg)
    (funcName : String) (args : List Arg) :
    ((∀ m, vegaFunctions funcName = some m → view.methods m = none) →
        vegaFunctionsHandler view funcName args
          = ⟨view.methods, onError view.messages (functionNotDefinedMsg funcName)⟩)
    ∧ (∀ m handler e, vegaFunctions funcName = some m →
        view.methods m = some handler → handler args = Except.error e →
        vegaFunctionsHandler view funcName args
          = ⟨view.methods, onError view.messages e⟩)
    ∧ (∀ m handler, vegaFunctions funcName = some m →
        view.methods m = some handler → handler args = Except.ok () →
        vegaFunctionsHandler view funcName args = view) := by
  refine ⟨?_, ?_, ?_⟩
  · intro habsent
    cases hv : vegaFunctions funcName with
    | none => simp [vegaFunctionsHandler, hv]
    | some m => simp [vegaFunctionsHandler, hv, habsent m hv]
  · intro m handler e hv hm he
    simp [vegaFunctionsHandler, hv, hm, he]
  · intro m handler hv hm he
    simp [vegaFunctionsHandler, hv, hm, he]

/-- A concrete instance for the dispatch witness: `setTimeFilterHandler`
throws, `removeAllFiltersHandler` completes, the other methods are absent. -/
def demoView : VegaView Nat :=
  ⟨fun m =>
    if m = "setTimeFilterHandler" then some (fun _ => Except.error "boom")
    else if m = "removeAllFiltersHandler" then some (fun _ => Except.ok ())
    else none,
   []⟩

/-- Closed instance of `vegaFunctionsHandler_never_throws`: an unknown name
appends the descriptive error, a throwing handler's error is routed to the
sink, and a completing handler leaves the view unchanged. -/
theorem vegaFunctionsHandler_never_throws_witness :
    vegaFunctionsHandler demoView "someOtherFunction" [] =
      ⟨demoView.methods, onError demoView.messages (functionNotDefinedMsg "someOtherFunction")⟩
    ∧ vegaFunctionsHandler demoView "opensearchDashboardsSetTimeFilter" [] =
      ⟨demoView.methods, onError demoView.messages "boom"⟩
    ∧ vegaFunctionsHandler demoView "opensearchDashboardsRemoveAllFilters" [] = demoView :=
  ⟨(vegaFunctionsHandler_never_throws demoView "someOtherFunction" []).1
      (fun m hm => by exact Option.noConfusion hm),
   (vegaFunctionsHandler_never_throws demoView "opensearchDashboardsSetTimeFilter" []).2.1
      "setTimeFilterHandler" (fun _ => Except.error "boom") "boom" rfl rfl rfl,
   (vegaFunctionsHandler_never_throws demoView "opensearchDashboardsRemoveAllFilters" []).2.2
      "removeAllFiltersHandler" (fun _ => Except.ok ()) rfl rfl rfl⟩

end VegaBaseView

namespace VegaBaseView

/-! ## Index resolution and filter bridge (`findIndex`, `addFilterHandler`) -/

/-- An index-pattern object; only its `id` is consumed. -/
structure IdxObj where
  id : String
deriving DecidableEq, Repr

/-- The fields of `this._parser` that `findIndex` reads to pick the active
spec for index extraction. -/
structure ParserSpecFields (Spec : Type) where
  isVegaLite : Bool
  vlspec : Spec
  spec : Spec

/-- The external index services `findIndex` consumes: `indexPatterns.find`
(returns a list whose head is destructured), `extractIndexPatternsFromSpec`
(from `../lib/extract_index_pattern`, likewise destructured), and
`indexPatterns.getDefault`. -/
structure IndexEnv (Spec : Type) where
  find : String → List IdxObj
  extractIndexPatternsFromSpec : Spec → List IdxObj
  getDefault : Option IdxObj

/-- The `else` branch of `findIndex`: take the first index pattern extracted
from the active spec (`vlspec` for vega-lite, else `spec`); when there is
none, fall back to the default index pattern; when that is also absent, throw
`unableToFindDefaultIndexErrorMessage`. -/
def findIndexFromSpecOrDefault (env : IndexEnv Spec) (parser : ParserSpecFields Spec) :
    Except String String :=
  match (env.extractIndexPatternsFromSpec
      (if parser.isVegaLite then parser.vlspec else parser.spec)).head? with
  | some idxObj => Except.ok idxObj.id
  | none =>
      match env.getDefault with
      | some defaultIdx => Except.ok defaultIdx.id
      | none => Except.error "Unable to find default index"

/-- Embedding of `findIndex(index)`: a truthy explicit index is looked up via
`indexPatterns.find` and must exist (`indexNotFoundErrorMessage` otherwise,
with no fallback); a missing index (`undefined` from
`Utils.handleNonStringIndex`, modelled as `none`, or the falsy empty string)
goes through the spec/default fallback chain. -/
def findIndex (env : IndexEnv Spec) (parser : ParserSpecFields Spec)
    (index : Option String) : Except String String :=
  match index with
  | some i =>
      if i.isEmpty then findIndexFromSpecOrDefault env parser
      else
        match (env.find i).head? with
        | some idxObj => Except.ok idxObj.id
        | none => Except.error ("Index \"" ++ i ++ "\" not found")
  | none => findIndexFromSpecOrDefault env parser

/-- The filter object built by the external
`opensearchFilters.buildQueryFilter(query, indexId, alias)`. -/
structure QueryFilter (Q : Type) where
  query : Q
  indexId : String
  aliasLabel : Option String
deriving DecidableEq, Repr

/-- External `opensearchFilters.buildQueryFilter` helper, kept opaque as the
record of its three arguments (`Utils.handleInvalidQuery` normalizes the query
upstream and is absorbed into the abstract query type `Q`). -/
def buildQueryFilter (q : Q) (indexId : String) (aliasLabel : Option String) :
    QueryFilter Q :=
  ⟨q, indexId, aliasLabel⟩

/-- The argument record of one `this._applyFilter({filters: [...]})` call. -/
structure AppliedFilters (Q : Type) where
  filters : List (QueryFilter Q)
deriving DecidableEq, Repr

/-- Embedding of `addFilterHandler(query, index, alias)`: resolve the index
via `findIndex`, build the query filter and invoke the host apply-filter
callback; `Except.ok c` means the callback was invoked with `c`, while
`Except.error _` means `findIndex` threw first. -/
def addFilterHandler (env : IndexEnv Spec) (parser : ParserSpecFields Spec)
    (query : Q) (index : Option String) (aliasLabel : Option String) :
    Except String (AppliedFilters Q) :=
  (findIndex env parser index).map fun indexId =>
    ⟨[buildQueryFilter query indexId aliasLabel]⟩

/-- C8: with no explicit index, `addFilterHandler` uses the first spec-derived
index pattern when one exists, otherwise the host default index; when neither
exists it fails with the descriptive index-resolution error; and with an
explicit index that `indexPatterns.find` cannot produce, it fails with the
descriptive `Index not found` error instead of falling back. -/
theorem addFilterHandler_index_fallback {Spec Q : Type} (env : IndexEnv Spec)
    (parser : ParserSpecFields Spec) (query : Q) (aliasLabel : Option String)
    (i : String) (hne : i.isEmpty = false) :
    (∀ o rest, env.extractIndexPatternsFromSpec
        (if parser.isVegaLite then parser.vlspec else parser.spec) = o :: rest →
        addFilterHandler env parser query none aliasLabel
          = Except.ok ⟨[buildQueryFilter query o.id aliasLabel]⟩)
    ∧ (env.extractIndexPatternsFromSpec
        (if parser.isVegaLite then parser.vlspec else parser.spec) = [] →
        ∀ d, env.getDefault = some d →
        addFilterHandler env parser query none aliasLabel
          = Except.ok ⟨[buildQueryFilter query d.id aliasLabel]⟩)
    ∧ (env.extractIndexPatternsFromSpec
        (if parser.isVegaLite then parser.vlspec else parser.spec) = [] →
        env.getDefault = none →
        addFilterHandler env parser query none aliasLabel
          = Except.error "Unable to find default index")
    ∧ (env.find i = [] →
        addFilterHandler env parser query (some i) aliasLabel
          = Except.error ("Index \"" ++ i ++ "\" not found")) := by
  refine ⟨?_, ?_, ?_, ?_⟩
  · intro o rest hspec
    simp [addFilterHandler, findIndex, findIndexFromSpecOrDefault, hspec,
      Except.map, buildQueryFilter]
  · intro hspec d hdef
    simp [addFilterHandler, findIndex, findIndexFromSpecOrDefault, hspec, hdef,
      Except.map, buildQueryFilter]
  · intro hspec hdef
    simp [addFilterHandler, findIndex, findIndexFromSpecOrDefault, hspec, hdef,
      Except.map]
  · intro hfind
    simp [addFilterHandler, findIndex, hne, hfind, Except.map]

/-- A concrete index environment for the fallback witness: the explicit index
`"missing"` is unknown, no index pattern is extractable from the spec, and a
default index exists. -/
def demoIndexEnv : IndexEnv Unit :=
  ⟨fun _ => [], fun _ => [], some ⟨"default-id"⟩⟩

/-- Closed instance of `addFilterHandler_index_fallback`: with no explicit
index and no spec-derived pattern the default index is used, and an unknown
explicit index fails with the descriptive error. -/
theorem addFilterHandler_index_fallback_witness :
    addFilterHandler demoIndexEnv ⟨false, (), ()⟩ (0 : Nat) none none
        = Except.ok ⟨[buildQueryFilter 0 "default-id" none]⟩
    ∧ addFilterHandler demoIndexEnv ⟨false, (), ()⟩ (0 : Nat) (some "missing") none
        = Except.error ("Index \"" ++ "missing" ++ "\" not found") :=
  ⟨(addFilterHandler_index_fallback demoIndexEnv ⟨false, (), ()⟩ 0 none "missing"
      rfl).2.1 rfl ⟨"default-id"⟩ rfl,
   (addFilterHandler_index_fallback demoIndexEnv ⟨false, (), ()⟩ 0 none "missing"
      rfl).2.2.2 rfl⟩

end VegaBaseView
